import Mathlib

/-!
Shallow embedding of the testkit CI scripts (backend.py, build.py, common.py,
integration.py, stress.py, unittests.py) and proofs about them.

Modelling conventions:
* A process environment is an association list of string pairs; lookup takes
  the first match, so prepending a pair models a Python dict update.
* A subprocess invocation is a `Spawn` record: argument list, optional working
  directory, and the environment explicitly handed to the subprocess module
  (`none` means the Python call passed env=None, i.e. the child inherits the
  parent environment).  `child_environment` resolves what the child really
  sees, following the subprocess module semantics: an explicit env mapping
  replaces the inherited environment wholesale.
* Exit codes of child processes are an oracle `Spawn → Int` supplied to each
  script model; a checked call (check=True) raises CalledProcessError on a
  non-zero code, which the embedding renders as `Except.error`.
* Python runtime errors that the scripts can hit (assigning a non-string to
  os.environ, calling a function with a missing positional argument, a failed
  from-import) are modelled as explicit `PyErr` values.
-/

/-- A process environment: association list, first match wins on lookup. -/
abbrev Env := List (String × String)

/-- Lookup in an environment: first binding of the key, if any. -/
def envGet : Env → String → Option String
  | [], _ => none
  | (k, v) :: rest, key => if k = key then some v else envGet rest key

/-- Python dict update (also os.environ assignment with a string value):
prepend, so that the new binding shadows any older one. -/
def envSet (e : Env) (k v : String) : Env := (k, v) :: e

/-- Python truthiness of os.environ.get(key, False): False (hence falsy) when
the variable is unset, otherwise the string value, truthy iff non-empty. -/
def env_get_truthy (e : Env) (k : String) : Bool :=
  match envGet e k with
  | none => false
  | some s => s ≠ ""

/-- Errors a script run can surface. -/
inductive PyErr where
  /-- subprocess.run with check=True on a non-zero exit code. -/
  | calledProcessError (returncode : Int)
  /-- Python TypeError (non-string os.environ value, missing call argument). -/
  | typeError (msg : String)
  /-- A from-import naming something the module does not define. -/
  | importError (missing : String)
  deriving DecidableEq, Repr

/-- One subprocess invocation as handed to the subprocess module. -/
structure Spawn where
  args : List String
  cwd : Option String
  /-- env argument of the subprocess call; none = inherit the parent. -/
  env : Option Env
  deriving DecidableEq, Repr

/-- The environment the child process actually sees: an explicit env mapping
passed to the subprocess module replaces the parent environment wholesale;
env=None inherits the parent environment. -/
def child_environment (parent : Env) (s : Spawn) : Env :=
  match s.env with
  | none => parent
  | some e => e

/-- Outcome of subprocess.run on a child that exited with the given code:
with check=True a non-zero code raises CalledProcessError carrying it. -/
def subprocess_run_outcome (check : Bool) (exitCode : Int) : Except PyErr Unit :=
  if check ∧ exitCode ≠ 0 then .error (.calledProcessError exitCode) else .ok ()

/-- Run a straight-line sequence of checked invocations: each command is
started only if all earlier ones exited zero; the first non-zero exit raises
and nothing after it is started. This is the common shape of the script
bodies (sequential run(...) calls with check=True and no try/except). -/
def runSeq (exitOf : Spawn → Int) : List Spawn → List Spawn × Except PyErr Unit
  | [] => ([], .ok ())
  | s :: rest =>
    if exitOf s = 0 then
      let tail := runSeq exitOf rest
      (s :: tail.1, tail.2)
    else
      ([s], .error (.calledProcessError (exitOf s)))

/-- Python str.lower on the ASCII flag values these scripts compare:
lowercase each character (Char.toLower handles the basic latin letters). -/
def strLower (s : String) : String :=
  String.mk (s.data.map Char.toLower)

namespace common

/-- common.py: the driver repository directory. -/
def DRIVER_REPO : String := "/home/driver/repo/"

/-- common.py is_enabled: case-insensitive membership in the enabled tokens. -/
def is_enabled (value : String) : Bool :=
  ["y", "yes", "t", "true", "1", "on"].contains (strLower value)

/-- common.py run: invoke subprocess.run with the given args, env, cwd and
check flag; returns the spawn record and the checked outcome for a child that
exits with the oracle code. -/
def run (exitOf : Spawn → Int) (args : List String) (envArg : Option Env)
    (cwd : Option String) (check : Bool) : Spawn × Except PyErr Unit :=
  let s : Spawn := ⟨args, cwd, envArg⟩
  (s, subprocess_run_outcome check (exitOf s))

/-- common.py is_lite: enabled-check of TEST_DRIVER_LITE, default "false". -/
def is_lite (e : Env) : Bool :=
  is_enabled ((envGet e "TEST_DRIVER_LITE").getD "false")

/-- common.py is_browser: enabled-check of TEST_DRIVER_BROWSER. -/
def is_browser (e : Env) : Bool :=
  is_enabled ((envGet e "TEST_DRIVER_BROWSER").getD "false")

/-- common.py get_driver_descriptor, read from the process environment. -/
def get_driver_descriptor (e : Env) : String :=
  (if is_lite e then "lite" else "full") ++
    (if is_browser e then ",browser" else ",node")

/-- common.py run_in_driver_repo: merge DRIVER_DESCRIPTOR into the supplied
environment (default os.environ) and run in the driver repo. `procEnv` is the
current os.environ; `envArg` is the explicit env argument, none for the
default. -/
def run_in_driver_repo (exitOf : Spawn → Int) (procEnv : Env)
    (args : List String) (envArg : Option Env) (check : Bool) :
    Spawn × Except PyErr Unit :=
  let base := envArg.getD procEnv
  let merged := envSet base "DRIVER_DESCRIPTOR" (get_driver_descriptor procEnv)
  run exitOf args (some merged) (some DRIVER_REPO) check

/-- common.py open_proccess_in_driver_repo: Popen in the driver repo with the
DRIVER_DESCRIPTOR-merged environment; returns the spawn record (the caller
waits on it separately, no exit-code check). -/
def open_proccess_in_driver_repo (procEnv : Env) (args : List String)
    (envArg : Option Env) : Spawn :=
  let base := envArg.getD procEnv
  ⟨args, some DRIVER_REPO,
    some (envSet base "DRIVER_DESCRIPTOR" (get_driver_descriptor procEnv))⟩

/-- Module-level names defined by common.py as it stands in the repository
(its imports plus its own definitions), in source order. -/
def module_names : List String :=
  ["subprocess", "os", "sys", "DRIVER_REPO", "is_enabled", "run", "run_in",
   "run_in_driver_repo", "open_proccess_in_driver_repo", "is_lite",
   "is_browser", "get_driver_descriptor"]

/-- Modelled from the spec: common.py in src defines no is_deno even though
backend.py imports it; the spec lists a deno-target flag among the
environment-variable Run Configuration, alongside the lite and browser flags.
Modelled as the enabled-check of TEST_DRIVER_DENO, following the
TEST_DRIVER_* naming of the sibling flags is_lite and is_browser. -/
def is_deno (e : Env) : Bool :=
  is_enabled ((envGet e "TEST_DRIVER_DENO").getD "false")

end common

/-- Python from-import semantics: binding the listed names in order fails
with ImportError at the first name the module does not define. -/
def from_import (moduleNames : List String) : List String → Except PyErr Unit
  | [] => .ok ()
  | n :: rest =>
    if moduleNames.contains n then from_import moduleNames rest
    else .error (.importError n)

namespace build

/-- build.py run: subprocess.run with check=True unconditionally. -/
def run (exitOf : Spawn → Int) (args : List String) (envArg : Option Env)
    (cwd : Option String) : Spawn × Except PyErr Unit :=
  let s : Spawn := ⟨args, cwd, envArg⟩
  (s, subprocess_run_outcome true (exitOf s))

/-- build.py build_core: the three commands run in ./packages/core/. -/
def build_core : List Spawn :=
  [⟨["rm", "-fr", "node_modules", "lib", "types"], some "./packages/core/", none⟩,
   ⟨["npm", "ci"], some "./packages/core/", none⟩,
   ⟨["npm", "run", "build"], some "./packages/core/", none⟩]

/-- build.py build_bolt_connection commands. -/
def build_bolt_connection : List Spawn :=
  [⟨["rm", "-fr", "node_modules", "lib"], some "./packages/bolt-connection/", none⟩,
   ⟨["npm", "ci"], some "./packages/bolt-connection/", none⟩,
   ⟨["npm", "run", "build"], some "./packages/bolt-connection/", none⟩]

/-- build.py build_driver commands. -/
def build_driver : List Spawn :=
  [⟨["rm", "-fr", "node_modules", "lib", "build"], some "./packages/neo4j-driver/", none⟩,
   ⟨["npm", "ci"], some "./packages/neo4j-driver/", none⟩,
   ⟨["gulp", "nodejs"], some "./packages/neo4j-driver/", none⟩]

/-- build.py build_driver_lite commands. -/
def build_driver_lite : List Spawn :=
  [⟨["rm", "-fr", "node_modules", "lib"], some "./packages/neo4j-driver-lite/", none⟩,
   ⟨["npm", "ci"], some "./packages/neo4j-driver-lite/", none⟩,
   ⟨["npm", "run", "build"], some "./packages/neo4j-driver-lite/", none⟩]

/-- build.py build_testkit_backend: the dependency installed is
neo4j@../neo4j-driver-lite when isLite holds, neo4j@../neo4j-driver else. -/
def build_testkit_backend (isLite : Bool) : List Spawn :=
  [⟨["rm", "-fr", "node_modules"], some "./packages/testkit-backend/", none⟩,
   ⟨["npm", "install"], some "./packages/testkit-backend/", none⟩,
   ⟨["npm", "install",
      if isLite then "neo4j@../neo4j-driver-lite" else "neo4j@../neo4j-driver"],
     some "./packages/testkit-backend/", none⟩]

/-- build.py main: isLite is the Python truthiness of
os.environ.get(TEST_DRIVER_LITE, False), i.e. set to a non-empty string. -/
def isLite (e : Env) : Bool := env_get_truthy e "TEST_DRIVER_LITE"

/-- The full command sequence build.py main attempts, in order. -/
def planned (e : Env) : List Spawn :=
  build_core ++ build_bolt_connection ++
    (if isLite e then build_driver_lite else []) ++
    build_driver ++ build_testkit_backend (isLite e)

/-- build.py main: the straight-line checked sequence (each run has
check=True and no exception is caught, so the first failure aborts). -/
def main (e : Env) (exitOf : Spawn → Int) : List Spawn × Except PyErr Unit :=
  runSeq exitOf (planned e)

end build

namespace unittests

/-- unittests.py test_driver commands. -/
def test_driver : List Spawn :=
  [⟨["gulp", "test-nodejs-unit"], some "./packages/neo4j-driver", none⟩,
   ⟨["gulp", "run-ts-declaration-tests"], some "./packages/neo4j-driver", none⟩]

/-- unittests.py test_driver_lite commands. -/
def test_driver_lite : List Spawn :=
  [⟨["npm", "test"], some "./packages/neo4j-driver-lite", none⟩]

/-- The full command sequence unittests.py main attempts, in order;
the lite dispatch is the truthiness of os.environ.get(TEST_DRIVER_LITE, False). -/
def planned (e : Env) : List Spawn :=
  [⟨["npm", "run", "test"], some "./packages/core", none⟩,
   ⟨["npm", "run", "test"], some "./packages/bolt-connection", none⟩] ++
    (if env_get_truthy e "TEST_DRIVER_LITE" then test_driver_lite else test_driver)

/-- unittests.py main as a straight-line checked sequence. -/
def main (e : Env) (exitOf : Spawn → Int) : List Spawn × Except PyErr Unit :=
  runSeq exitOf (planned e)

end unittests

/-- A Python value that os.environ.get with a non-string default can
produce: the stored string, or the default, which stress.py passes as the
int 0. -/
inductive PyVal where
  | str (s : String)
  | int (n : Int)
  deriving DecidableEq, Repr

/-- os.environ.get(key, default) where the default need not be a string. -/
def environ_get_or (e : Env) (k : String) (d : PyVal) : PyVal :=
  match envGet e k with
  | some s => .str s
  | none => d

/-- os.environ item assignment: os.environ only accepts string values and
raises TypeError on anything else. -/
def environ_setitem (e : Env) (k : String) (v : PyVal) : Except PyErr Env :=
  match v with
  | .str s => .ok (envSet e k s)
  | .int _ => .error (.typeError "str expected, not int")

namespace stress

/-- stress.py test_driver commands. -/
def test_driver : List Spawn :=
  [⟨["gulp", "run-stress-tests-without-jasmine"], some "./packages/neo4j-driver", none⟩]

/-- stress.py test_driver_lite: an immediate return, no commands. -/
def test_driver_lite : List Spawn := []

/-- stress.py main: set STRESS_TEST_MODE, then assign RUNNING_TIME_IN_SECONDS
from os.environ.get(TEST_NEO4J_STRESS_DURATION, 0) — a TypeError when the
variable is unset, since the default 0 is an int — then dispatch on the
truthiness of TEST_DRIVER_LITE. Returns the final environment on the path
that gets past the assignments, the started commands, and the outcome. -/
def main (e : Env) (exitOf : Spawn → Int) :
    List Spawn × Except PyErr Env :=
  match environ_setitem (envSet e "STRESS_TEST_MODE" "fastest")
      "RUNNING_TIME_IN_SECONDS"
      (environ_get_or (envSet e "STRESS_TEST_MODE" "fastest")
        "TEST_NEO4J_STRESS_DURATION" (.int 0)) with
  | .error err => ([], .error err)
  | .ok e2 =>
    ((runSeq exitOf (if env_get_truthy e2 "TEST_DRIVER_LITE"
        then test_driver_lite else test_driver)).1,
      match (runSeq exitOf (if env_get_truthy e2 "TEST_DRIVER_LITE"
          then test_driver_lite else test_driver)).2 with
      | .ok () => .ok e2
      | .error err => .error err)

end stress

namespace integration

/-- integration.py run: cwd is a required positional parameter with no
default; `cwdArg = none` models a call site that omits it, which Python
rejects with a TypeError before the body runs. -/
def run (exitOf : Spawn → Int) (args : List String) (cwdArg : Option String) :
    List Spawn × Except PyErr Unit :=
  match cwdArg with
  | none => ([], .error (.typeError "run missing 1 required positional argument: cwd"))
  | some cwd =>
    let s : Spawn := ⟨args, some cwd, none⟩
    ([s], subprocess_run_outcome true (exitOf s))

/-- integration.py test_driver: the inlined skip-browser flag check, the
same token set as common.is_enabled with default "false". -/
def skip_browser (e : Env) : Bool :=
  ["y", "yes", "t", "true", "1", "on"].contains
    (strLower ((envGet e "TEST_DRIVER_SKIP_BROWSER").getD "false"))

/-- integration.py test_driver: run gulp test-browser (only when the
skip-browser flag is enabled), then gulp test-nodejs-integration; both
checked, so a failing first command prevents the second. -/
def test_driver (e : Env) (exitOf : Spawn → Int) :
    List Spawn × Except PyErr Unit :=
  if skip_browser e then
    let r1 := run exitOf ["gulp", "test-browser"] (some "./packages/neo4j-driver")
    match r1.2 with
    | .error err => (r1.1, .error err)
    | .ok () =>
      let r2 := run exitOf ["gulp", "test-nodejs-integration"]
        (some "./packages/neo4j-driver")
      (r1.1 ++ r2.1, r2.2)
  else
    run exitOf ["gulp", "test-nodejs-integration"] (some "./packages/neo4j-driver")

/-- integration.py test_driver_lite commands, in order. -/
def test_driver_lite (exitOf : Spawn → Int) : List Spawn × Except PyErr Unit :=
  runSeq exitOf
    [⟨["npm", "run", "test:it"], some "./packages/neo4j-driver-lite", none⟩,
     ⟨["npm", "run", "test:it:browser"], some "./packages/neo4j-driver-lite", none⟩]

/-- integration.py main: set TEST_NEO4J_IPV6_ENABLED, choose the ignore
flag from the truthiness of TEST_DRIVER_LITE, then call run with only the
argument list — the required cwd argument is missing, a TypeError. Returns
the mutated environment, the started commands and the outcome. -/
def main (e : Env) (exitOf : Spawn → Int) :
    Env × List Spawn × Except PyErr Unit :=
  let e1 := envSet e "TEST_NEO4J_IPV6_ENABLED" "False"
  let ignore := if env_get_truthy e1 "TEST_DRIVER_LITE"
    then "--ignore=neo4j-driver" else "--ignore=neo4j-driver-lite"
  let r := run exitOf ["npm", "run", "test::integration", "--", ignore] none
  (e1, r.1, r.2)

end integration

namespace backend

/-- The names backend.py binds with its from-import of the common module,
in source order. -/
def import_list : List String :=
  ["open_proccess_in_driver_repo", "is_browser", "is_deno", "run_in_driver_repo"]

/-- Observable operations of the backend script body: starting a process,
time.sleep, and waiting on a started process (recording the exit code the
wait observed; the script never inspects it). -/
inductive BEvent where
  | start (s : Spawn)
  | sleep (seconds : Nat)
  | wait (s : Spawn) (code : Int)
  deriving DecidableEq, Repr

/-- backend.py: the npm script name, switched on is_deno. -/
def script_name (e : Env) : String :=
  if common.is_deno e then "start-testkit-backend::deno" else "start-testkit-backend"

/-- backend.py lines 22-28: the os.environ mutations before the backend is
started — TEST_ENVIRONMENT=REMOTE when the browser flag is enabled, and
SESSION_TYPE copied from TEST_SESSION_TYPE when the latter is set. -/
def env_after_mutations (e : Env) : Env :=
  let e1 := if common.is_browser e then envSet e "TEST_ENVIRONMENT" "REMOTE" else e
  match envGet e1 "TEST_SESSION_TYPE" with
  | some v => envSet e1 "SESSION_TYPE" v
  | none => e1

/-- The backend process spawn: open_proccess_in_driver_repo with
env=os.environ, called after the mutations. -/
def backend_spawn (e : Env) : Spawn :=
  common.open_proccess_in_driver_repo (env_after_mutations e)
    ["npm", "run", script_name e] (some (env_after_mutations e))

/-- The firefox process spawn: open_proccess_in_driver_repo with the default
environment argument. -/
def firefox_spawn (e : Env) : Spawn :=
  common.open_proccess_in_driver_repo (env_after_mutations e)
    ["firefox", "-profile ./profile -headless ", "http://localhost:8000"] none

/-- backend.py main body (after the imports): start the backend; in browser
mode sleep 5 seconds, start firefox, wait on firefox; finally wait on the
backend. No exit code is checked, so the body always completes normally. -/
def body (e : Env) (exitOf : Spawn → Int) : List BEvent × Except PyErr Unit :=
  let e2 := env_after_mutations e
  let b := backend_spawn e
  let events :=
    BEvent.start b ::
      (if common.is_browser e2 then
        [BEvent.sleep 5, BEvent.start (firefox_spawn e),
         BEvent.wait (firefox_spawn e) (exitOf (firefox_spawn e))]
      else []) ++ [BEvent.wait b (exitOf b)]
  (events, .ok ())

/-- backend.py as executed: the from-import of the common module runs first
and must resolve every imported name before any statement of the body. -/
def script (e : Env) (exitOf : Spawn → Int) : List BEvent × Except PyErr Unit :=
  match from_import common.module_names import_list with
  | .error err => ([], .error err)
  | .ok () => body e exitOf

end backend

/-- Fail-fast shape of a script run: any started command that exited
non-zero is the last command started and the script ended with a
CalledProcessError carrying its exit code; and a normally completed script
only ever started commands that exited zero. -/
def fail_fast {α : Type} (exitOf : Spawn → Int) (tr : List Spawn)
    (res : Except PyErr α) : Prop :=
  (∀ s ∈ tr, exitOf s ≠ 0 →
    tr.getLast? = some s ∧ res = .error (.calledProcessError (exitOf s))) ∧
  (∀ a, res = .ok a → ∀ s ∈ tr, exitOf s = 0)

/-! Helper lemmas shared by the claim theorems. -/

theorem envGet_envSet_of_ne (e : Env) (k key v : String) (h : k ≠ key) :
    envGet (envSet e k v) key = envGet e key := by
  simp [envSet, envGet, h]

theorem runSeq_all_zero (exitOf : Spawn → Int) :
    ∀ plan : List Spawn, (∀ s ∈ plan, exitOf s = 0) →
      runSeq exitOf plan = (plan, .ok ())
  | [], _ => rfl
  | s :: rest, h => by
    have hs : exitOf s = 0 := h s (by simp)
    have ih := runSeq_all_zero exitOf rest (fun x hx => h x (by simp [hx]))
    simp [runSeq, hs, ih]

theorem runSeq_fail_fast (exitOf : Spawn → Int) :
    ∀ plan : List Spawn,
      fail_fast exitOf (runSeq exitOf plan).1 (runSeq exitOf plan).2
  | [] => by
    refine ⟨?_, ?_⟩
    · intro s hs; simp [runSeq] at hs
    · intro a _ s hs; simp [runSeq] at hs
  | s :: rest => by
    have ih := runSeq_fail_fast exitOf rest
    by_cases hs : exitOf s = 0
    · simp only [runSeq, if_pos hs]
      refine ⟨?_, ?_⟩
      · intro s1 hmem hne
        rcases List.mem_cons.mp hmem with h1 | h1
        · exact absurd (h1 ▸ hs) hne
        · have hlast := (ih.1 s1 h1 hne).1
          refine ⟨?_, (ih.1 s1 h1 hne).2⟩
          exact Option.mem_def.mp
            (List.mem_getLast?_cons (Option.mem_def.mpr hlast))
      · intro a ha s1 hmem
        rcases List.mem_cons.mp hmem with h1 | h1
        · exact h1 ▸ hs
        · exact ih.2 a ha s1 h1
    · simp only [runSeq, if_neg hs]
      refine ⟨?_, ?_⟩
      · intro s1 hmem hne
        have h1 : s1 = s := by simpa using hmem
        subst h1
        exact ⟨rfl, rfl⟩
      · intro a ha
        exact absurd ha (by simp)

/-! Claim theorems. -/

/-- Claim C2: for every process environment (and whatever the child
processes would do), the backend script fails at module-import time with an
ImportError on the name is_deno, which common.py does not define, and starts
no backend or browser process (its event trace is empty). -/
theorem c2_backend_import_error (e : Env) (exitOf : Spawn → Int) :
    backend.script e exitOf = ([], .error (.importError "is_deno")) := rfl

/-- Claim C7 (code bug, evaluated at the failing input): in an environment
without TEST_NEO4J_STRESS_DURATION, stress.py does not read its
configuration without error — os.environ.get falls back to the int 0 and
the os.environ assignment of RUNNING_TIME_IN_SECONDS raises TypeError
before any dispatch, with no command started. -/
theorem c7_stress_duration_typeerror :
    stress.main [] (fun _ => 0) =
      ([], .error (.typeError "str expected, not int")) := rfl

/-- Claim C8: for every process environment, integration.py main sets
TEST_NEO4J_IPV6_ENABLED to False and computes the ignore flag, then calls
its two-parameter run with only the argument list; the missing required
cwd argument raises TypeError and no subprocess is ever launched. -/
theorem c8_integration_missing_cwd (e : Env) (exitOf : Spawn → Int) :
    integration.main e exitOf =
      (envSet e "TEST_NEO4J_IPV6_ENABLED" "False", [],
        .error (.typeError "run missing 1 required positional argument: cwd")) :=
  rfl

/-- Claim C3 counterexample: common.run called with the explicit override
FOO=bar under a parent environment holding PATH=/bin gives a child whose
environment does NOT inherit PATH (the subprocess env argument replaces the
parent environment wholesale), contradicting the claimed inheritance of
keys absent from the override. -/
theorem c3_override_counterexample :
    envGet [("PATH", "/bin")] "PATH" = some "/bin" ∧
    envGet (child_environment [("PATH", "/bin")]
      ((common.run (fun _ => 0) ["env"] (some [("FOO", "bar")]) none true).1))
      "PATH" = none ∧
    envGet (child_environment [("PATH", "/bin")]
      ((common.run (fun _ => 0) ["env"] (some [("FOO", "bar")]) none true).1))
      "FOO" = some "bar" :=
  ⟨rfl, rfl, rfl⟩

/-- Claim C3 (amended): when an explicit environment mapping is supplied to
common.run the child sees exactly that mapping — keys present in the
override are visible with the override value, keys absent from the override
are absent from the child environment rather than inherited from the
parent; the parent environment is inherited only when no env argument is
supplied. run_in_driver_repo with an explicit mapping passes it on with the
single addition of DRIVER_DESCRIPTOR computed from the process
environment. -/
theorem c3_override_amended (parent override : Env) (args : List String)
    (cwd : Option String) (check : Bool) (exitOf : Spawn → Int) :
    (∀ k v, envGet override k = some v →
      envGet (child_environment parent
        ((common.run exitOf args (some override) cwd check).1)) k = some v) ∧
    (∀ k, envGet override k = none →
      envGet (child_environment parent
        ((common.run exitOf args (some override) cwd check).1)) k = none) ∧
    (child_environment parent ((common.run exitOf args none cwd check).1)
      = parent) ∧
    (child_environment parent
        ((common.run_in_driver_repo exitOf parent args (some override) check).1)
      = envSet override "DRIVER_DESCRIPTOR"
          (common.get_driver_descriptor parent)) :=
  ⟨fun _ _ h => h, fun _ h => h, rfl, rfl⟩

/-- Witness for the amended claim C3 at concrete inputs. -/
theorem c3_override_amended_witness :
    envGet (child_environment [("HOME", "/root")]
      ((common.run (fun _ => 0) ["env"] (some [("DEBUG", "1")]) none true).1))
      "DEBUG" = some "1" ∧
    envGet (child_environment [("HOME", "/root")]
      ((common.run (fun _ => 0) ["env"] (some [("DEBUG", "1")]) none true).1))
      "HOME" = none :=
  ⟨(c3_override_amended [("HOME", "/root")] [("DEBUG", "1")] ["env"] none true
      (fun _ => 0)).1 "DEBUG" "1" rfl,
   (c3_override_amended [("HOME", "/root")] [("DEBUG", "1")] ["env"] none true
      (fun _ => 0)).2.1 "HOME" rfl⟩

/-- Claim C4: a checked invocation returns normally when the child exits
zero, and raises CalledProcessError (the error the spec calls
CommandFailed) carrying the child's exit code when it exits non-zero; both
for common.run at its default check=True and for build.py's run, which is
always checked. -/
theorem c4_run_exit_code (args : List String) (envArg : Option Env)
    (cwd : Option String) (exitCode : Int) :
    (exitCode = 0 →
      (common.run (fun _ => exitCode) args envArg cwd true).2 = .ok () ∧
      (build.run (fun _ => exitCode) args envArg cwd).2 = .ok ()) ∧
    (exitCode ≠ 0 →
      (common.run (fun _ => exitCode) args envArg cwd true).2 =
        .error (.calledProcessError exitCode) ∧
      (build.run (fun _ => exitCode) args envArg cwd).2 =
        .error (.calledProcessError exitCode)) := by
  constructor
  · intro h
    subst h
    exact ⟨rfl, rfl⟩
  · intro h
    constructor <;>
      simp [common.run, build.run, subprocess_run_outcome, h]

/-- Witness for claim C4: exit code 0 returns normally, exit code 1 raises
CalledProcessError 1. -/
theorem c4_run_exit_code_witness :
    ((common.run (fun _ => (0 : Int)) ["true"] none none true).2 = .ok () ∧
      (build.run (fun _ => (0 : Int)) ["true"] none none).2 = .ok ()) ∧
    ((common.run (fun _ => (1 : Int)) ["false"] none none true).2 =
        .error (.calledProcessError 1) ∧
      (build.run (fun _ => (1 : Int)) ["false"] none none).2 =
        .error (.calledProcessError 1)) :=
  ⟨(c4_run_exit_code ["true"] none none 0).1 rfl,
   (c4_run_exit_code ["false"] none none 1).2 (by decide)⟩

/-- Claim C1 counterexample: with TEST_DRIVER_LITE set to the disabled
token "false", is_lite() reports full, yet build.py main — which tests the
Python truthiness of os.environ.get(TEST_DRIVER_LITE, False), true for any
non-empty string — selects the lite path and installs the testkit backend
dependency as neo4j@../neo4j-driver-lite. -/
theorem c1_lite_selection_counterexample :
    common.is_lite [("TEST_DRIVER_LITE", "false")] = false ∧
    build.isLite [("TEST_DRIVER_LITE", "false")] = true ∧
    (⟨["npm", "install", "neo4j@../neo4j-driver-lite"],
        some "./packages/testkit-backend/", none⟩ : Spawn) ∈
      build.planned [("TEST_DRIVER_LITE", "false")] := by
  refine ⟨by decide, rfl, by decide⟩

/-- Claim C1 (amended): the lite build/test path in build.py and stress.py
is selected iff TEST_DRIVER_LITE is set to a non-empty string (Python
truthiness of os.environ.get(var, False)), not iff is_lite() reports lite:
build.py main schedules the neo4j-driver-lite build and installs the
backend dependency as neo4j@../neo4j-driver-lite exactly under that
condition (and as neo4j@../neo4j-driver otherwise), and stress.py
dispatches to its no-op lite path under the same condition. -/
theorem c1_lite_selection_amended (e : Env) :
    (build.isLite e = true ↔
      ∃ v, envGet e "TEST_DRIVER_LITE" = some v ∧ v ≠ "") ∧
    ((⟨["npm", "ci"], some "./packages/neo4j-driver-lite/", none⟩ : Spawn) ∈
        build.planned e ↔ build.isLite e = true) ∧
    ((⟨["npm", "install", "neo4j@../neo4j-driver-lite"],
        some "./packages/testkit-backend/", none⟩ : Spawn) ∈
        build.planned e ↔ build.isLite e = true) ∧
    ((⟨["npm", "install", "neo4j@../neo4j-driver"],
        some "./packages/testkit-backend/", none⟩ : Spawn) ∈
        build.planned e ↔ build.isLite e = false) ∧
    (∀ d exitOf, envGet e "TEST_NEO4J_STRESS_DURATION" = some d →
      (stress.main e exitOf).1 =
        if build.isLite e then [] else stress.test_driver) := by
  refine ⟨?_, ?_, ?_, ?_, ?_⟩
  · unfold build.isLite env_get_truthy
    cases h : envGet e "TEST_DRIVER_LITE" <;> simp
  · cases hL : build.isLite e <;> simp [build.planned, hL] <;> decide
  · cases hL : build.isLite e <;> simp [build.planned, hL] <;> decide
  · cases hL : build.isLite e <;> simp [build.planned, hL] <;> decide
  · intro d exitOf hd
    unfold stress.main
    have hget : envGet (envSet e "STRESS_TEST_MODE" "fastest")
        "TEST_NEO4J_STRESS_DURATION" = some d := by
      rw [envGet_envSet_of_ne _ _ _ _ (by decide)]
      exact hd
    simp only [environ_get_or, hget, environ_setitem]
    have htruthy : env_get_truthy
        (envSet (envSet e "STRESS_TEST_MODE" "fastest")
          "RUNNING_TIME_IN_SECONDS" d) "TEST_DRIVER_LITE" =
        env_get_truthy e "TEST_DRIVER_LITE" := by
      unfold env_get_truthy
      rw [envGet_envSet_of_ne _ _ _ _ (by decide),
        envGet_envSet_of_ne _ _ _ _ (by decide)]
    rw [htruthy]
    cases hL : env_get_truthy e "TEST_DRIVER_LITE"
    · by_cases hx : exitOf
          ⟨["gulp", "run-stress-tests-without-jasmine"],
            some "./packages/neo4j-driver", none⟩ = 0 <;>
        simp [build.isLite, hL, stress.test_driver, runSeq, hx]
    · simp [build.isLite, hL, stress.test_driver_lite, runSeq]

/-- Witness for the amended claim C1 at a concrete environment. -/
theorem c1_lite_selection_amended_witness :
    build.isLite
      [("TEST_DRIVER_LITE", "1"), ("TEST_NEO4J_STRESS_DURATION", "10")] = true ∧
    (stress.main
      [("TEST_DRIVER_LITE", "1"), ("TEST_NEO4J_STRESS_DURATION", "10")]
      (fun _ => 0)).1 =
      (if build.isLite
        [("TEST_DRIVER_LITE", "1"), ("TEST_NEO4J_STRESS_DURATION", "10")]
       then [] else stress.test_driver) :=
  ⟨((c1_lite_selection_amended
      [("TEST_DRIVER_LITE", "1"), ("TEST_NEO4J_STRESS_DURATION", "10")]).1).mpr
      ⟨"1", rfl, by decide⟩,
   (c1_lite_selection_amended
      [("TEST_DRIVER_LITE", "1"), ("TEST_NEO4J_STRESS_DURATION", "10")]).2.2.2.2
      "10" (fun _ => 0) rfl⟩

/-- Claim C5 counterexample: in backend.py with the browser configuration
enabled, when both started processes exit 1 (non-zero) the script does not
terminate on the failure: the firefox process is still started after the
backend process invocation, both waits observe exit code 1, and the body
completes normally — no error is raised and nothing aborts. -/
theorem c5_fail_fast_counterexample :
    (backend.body [("TEST_DRIVER_BROWSER", "1")] (fun _ => 1)).2 = .ok () ∧
    (backend.body [("TEST_DRIVER_BROWSER", "1")] (fun _ => 1)).1 =
      [.start (backend.backend_spawn [("TEST_DRIVER_BROWSER", "1")]),
       .sleep 5,
       .start (backend.firefox_spawn [("TEST_DRIVER_BROWSER", "1")]),
       .wait (backend.firefox_spawn [("TEST_DRIVER_BROWSER", "1")]) 1,
       .wait (backend.backend_spawn [("TEST_DRIVER_BROWSER", "1")]) 1] :=
  ⟨rfl, rfl⟩

/-- Claim C5 (amended): in build.py, unittests.py, stress.py and
integration.py every subprocess invocation is checked, so an invocation
that exits non-zero terminates the script immediately — it is the last
command started and the script ends with CalledProcessError carrying its
exit code — and a normally completed run only started commands that exited
zero; backend.py is the exception: its two processes are started with
Popen, their exit codes are never checked, and a non-zero exit terminates
nothing. -/
theorem c5_fail_fast_amended (e : Env) (exitOf : Spawn → Int) :
    fail_fast exitOf (build.main e exitOf).1 (build.main e exitOf).2 ∧
    fail_fast exitOf (unittests.main e exitOf).1 (unittests.main e exitOf).2 ∧
    fail_fast exitOf (stress.main e exitOf).1 (stress.main e exitOf).2 ∧
    fail_fast exitOf (integration.main e exitOf).2.1
      (integration.main e exitOf).2.2 := by
  refine ⟨runSeq_fail_fast exitOf _, runSeq_fail_fast exitOf _, ?_, ?_⟩
  · unfold stress.main
    cases hset : environ_setitem (envSet e "STRESS_TEST_MODE" "fastest")
        "RUNNING_TIME_IN_SECONDS"
        (environ_get_or (envSet e "STRESS_TEST_MODE" "fastest")
          "TEST_NEO4J_STRESS_DURATION" (.int 0)) with
    | error err =>
      refine ⟨?_, ?_⟩
      · intro s hs
        simp at hs
      · intro a _ s hs
        simp at hs
    | ok e2 =>
      have hff := runSeq_fail_fast exitOf
        (if env_get_truthy e2 "TEST_DRIVER_LITE" then stress.test_driver_lite
         else stress.test_driver)
      cases hres : (runSeq exitOf
          (if env_get_truthy e2 "TEST_DRIVER_LITE" then stress.test_driver_lite
           else stress.test_driver)).2 with
      | ok u =>
        cases u
        rw [hres] at hff
        refine ⟨?_, ?_⟩
        · intro s hs hne
          simp only [hres] at hs ⊢
          exact absurd (hff.1 s hs hne).2 (by simp)
        · intro a _ s hs
          simp only [hres] at hs
          exact hff.2 () rfl s hs
      | error err =>
        rw [hres] at hff
        refine ⟨?_, ?_⟩
        · intro s hs hne
          simp only [hres] at hs ⊢
          have h2 := (hff.1 s hs hne).2
          simp only [Except.error.injEq] at h2
          exact ⟨(hff.1 s hs hne).1, by rw [h2]⟩
        · intro a ha
          simp only [hres] at ha
          exact absurd ha (by simp)
  · refine ⟨?_, ?_⟩
    · intro s hs
      simp [integration.main, integration.run] at hs
    · intro a ha
      simp [integration.main, integration.run] at ha

/-- Witness for the amended claim C5: with every child exiting 1, build.py
main starts only its first command, which is the last started, and ends
with CalledProcessError 1. -/
theorem c5_fail_fast_amended_witness :
    (build.main [] (fun _ => 1)).1.getLast? =
      some ⟨["rm", "-fr", "node_modules", "lib", "types"],
        some "./packages/core/", none⟩ ∧
    (build.main [] (fun _ => 1)).2 = .error (.calledProcessError 1) :=
  (c5_fail_fast_amended [] (fun _ => 1)).1.1
    ⟨["rm", "-fr", "node_modules", "lib", "types"], some "./packages/core/", none⟩
    (by decide) (by decide)

theorem envGet_env_after_mutations (e : Env) (key : String)
    (h1 : "TEST_ENVIRONMENT" ≠ key) (h2 : "SESSION_TYPE" ≠ key) :
    envGet (backend.env_after_mutations e) key = envGet e key := by
  unfold backend.env_after_mutations
  cases hb : common.is_browser e
  · cases hs : envGet e "TEST_SESSION_TYPE"
    · simp [hb, hs]
    · simp [hb, hs, envGet_envSet_of_ne _ _ _ _ h2]
  · cases hs : envGet (envSet e "TEST_ENVIRONMENT" "REMOTE") "TEST_SESSION_TYPE"
    · simp [hb, hs, envGet_envSet_of_ne _ _ _ _ h1]
    · simp [hb, hs, envGet_envSet_of_ne _ _ _ _ h1,
        envGet_envSet_of_ne _ _ _ _ h2]

theorem is_browser_env_after_mutations (e : Env) :
    common.is_browser (backend.env_after_mutations e) = common.is_browser e := by
  unfold common.is_browser
  rw [envGet_env_after_mutations e _ (by decide) (by decide)]

/-- Claim C6: when the backend main body runs with the browser
configuration enabled its operations occur in exactly this order: start the
backend process, sleep the fixed 5-second settle delay, start the firefox
process, wait for firefox to exit, then wait for the backend to exit; with
the browser configuration disabled, only start-backend followed by
wait-backend occur. -/
theorem c6_backend_event_order (e : Env) (exitOf : Spawn → Int) :
    (common.is_browser e = true →
      (backend.body e exitOf).1 =
        [.start (backend.backend_spawn e), .sleep 5,
         .start (backend.firefox_spawn e),
         .wait (backend.firefox_spawn e) (exitOf (backend.firefox_spawn e)),
         .wait (backend.backend_spawn e) (exitOf (backend.backend_spawn e))]) ∧
    (common.is_browser e = false →
      (backend.body e exitOf).1 =
        [.start (backend.backend_spawn e),
         .wait (backend.backend_spawn e) (exitOf (backend.backend_spawn e))]) := by
  have hbr := is_browser_env_after_mutations e
  constructor <;> intro h <;> simp [backend.body, hbr, h]

/-- Witness for claim C6 at a browser-enabled and a browser-disabled
environment. -/
theorem c6_backend_event_order_witness :
    (backend.body [("TEST_DRIVER_BROWSER", "on")] (fun _ => 0)).1 =
      [.start (backend.backend_spawn [("TEST_DRIVER_BROWSER", "on")]), .sleep 5,
       .start (backend.firefox_spawn [("TEST_DRIVER_BROWSER", "on")]),
       .wait (backend.firefox_spawn [("TEST_DRIVER_BROWSER", "on")]) 0,
       .wait (backend.backend_spawn [("TEST_DRIVER_BROWSER", "on")]) 0] ∧
    (backend.body [] (fun _ => 0)).1 =
      [.start (backend.backend_spawn []),
       .wait (backend.backend_spawn []) 0] :=
  ⟨(c6_backend_event_order [("TEST_DRIVER_BROWSER", "on")] (fun _ => 0)).1
      (by decide),
   (c6_backend_event_order [] (fun _ => 0)).2 rfl⟩

/-- Claim C9: in integration.py test_driver, assuming every started command
exits zero, the browser test command gulp test-browser is executed iff
TEST_DRIVER_SKIP_BROWSER is set to one of the enabled tokens
y/yes/t/true/1/on (case-insensitive) — the skip flag enables rather than
skips the browser tests — and gulp test-nodejs-integration is executed
afterwards in every configuration. -/
theorem c9_integration_skip_browser (e : Env) (exitOf : Spawn → Int)
    (h : ∀ s, exitOf s = 0) :
    (integration.test_driver e exitOf).1 =
      (if integration.skip_browser e then
        [⟨["gulp", "test-browser"], some "./packages/neo4j-driver", none⟩]
       else []) ++
        [⟨["gulp", "test-nodejs-integration"],
          some "./packages/neo4j-driver", none⟩] ∧
    integration.skip_browser e =
      common.is_enabled ((envGet e "TEST_DRIVER_SKIP_BROWSER").getD "false") := by
  refine ⟨?_, rfl⟩
  cases hs : integration.skip_browser e <;>
    simp [integration.test_driver, integration.run, hs,
      subprocess_run_outcome, h]

/-- Witness for claim C9 with the skip flag set to an enabled token. -/
theorem c9_integration_skip_browser_witness :
    (integration.test_driver [("TEST_DRIVER_SKIP_BROWSER", "YES")]
        (fun _ => 0)).1 =
      (if integration.skip_browser [("TEST_DRIVER_SKIP_BROWSER", "YES")] then
        [⟨["gulp", "test-browser"], some "./packages/neo4j-driver", none⟩]
       else []) ++
        [⟨["gulp", "test-nodejs-integration"],
          some "./packages/neo4j-driver", none⟩] ∧
    integration.skip_browser [("TEST_DRIVER_SKIP_BROWSER", "YES")] =
      common.is_enabled
        ((envGet [("TEST_DRIVER_SKIP_BROWSER", "YES")]
          "TEST_DRIVER_SKIP_BROWSER").getD "false") :=
  c9_integration_skip_browser [("TEST_DRIVER_SKIP_BROWSER", "YES")]
    (fun _ => 0) (fun _ => rfl)

/-- Claim C10: in the backend main body, when TEST_SESSION_TYPE is set its
value is placed under the name SESSION_TYPE in the environment handed to
the backend process when it is started; when TEST_SESSION_TYPE is unset the
SESSION_TYPE binding of that child environment is exactly the script
environment's own (no key is added). -/
theorem c10_session_type_forwarding (e : Env) :
    (∀ v, envGet e "TEST_SESSION_TYPE" = some v →
      envGet (child_environment (backend.env_after_mutations e)
        (backend.backend_spawn e)) "SESSION_TYPE" = some v) ∧
    (envGet e "TEST_SESSION_TYPE" = none →
      envGet (child_environment (backend.env_after_mutations e)
        (backend.backend_spawn e)) "SESSION_TYPE" =
        envGet e "SESSION_TYPE") := by
  have hchild : envGet (child_environment (backend.env_after_mutations e)
      (backend.backend_spawn e)) "SESSION_TYPE" =
      envGet (backend.env_after_mutations e) "SESSION_TYPE" := by
    show envGet (envSet (backend.env_after_mutations e) "DRIVER_DESCRIPTOR"
      (common.get_driver_descriptor (backend.env_after_mutations e)))
      "SESSION_TYPE" = _
    exact envGet_envSet_of_ne _ _ _ _ (by decide)
  have hsess : envGet (if common.is_browser e then
        envSet e "TEST_ENVIRONMENT" "REMOTE" else e) "TEST_SESSION_TYPE" =
      envGet e "TEST_SESSION_TYPE" := by
    cases hb : common.is_browser e <;>
      simp [hb, envGet_envSet_of_ne _ _ _ _ (by decide : "TEST_ENVIRONMENT" ≠ "TEST_SESSION_TYPE")]
  constructor
  · intro v hv
    rw [hchild]
    simp only [backend.env_after_mutations]
    rw [hsess, hv]
    simp [envSet, envGet]
  · intro hv
    rw [hchild]
    simp only [backend.env_after_mutations]
    rw [hsess, hv]
    cases hb : common.is_browser e <;>
      simp [hb, envGet_envSet_of_ne _ _ _ _
        (by decide : "TEST_ENVIRONMENT" ≠ "SESSION_TYPE")]

/-- Witness for claim C10 with the session variable set and unset. -/
theorem c10_session_type_forwarding_witness :
    envGet (child_environment
      (backend.env_after_mutations [("TEST_SESSION_TYPE", "abc")])
      (backend.backend_spawn [("TEST_SESSION_TYPE", "abc")])) "SESSION_TYPE" =
      some "abc" ∧
    envGet (child_environment (backend.env_after_mutations [])
      (backend.backend_spawn [])) "SESSION_TYPE" = envGet [] "SESSION_TYPE" :=
  ⟨(c10_session_type_forwarding [("TEST_SESSION_TYPE", "abc")]).1 "abc" rfl,
   (c10_session_type_forwarding []).2 rfl⟩
